import Mathlib

/-!
Verification of the question-generator repository (two variants of the same
engine: `application.py`, namespace `App`, and `src/question_generator.py`,
namespace `Qg`).

The spaCy annotator is the external collaborator: a document is modelled as a
list of annotated tokens (surface text, lemma, coarse POS, the human-readable
tag description returned by `spacy.explain(token.tag_)`, dependency label,
entity-type label, head index) together with the noun-chunk spans the
annotator reports.  Derived annotator notions (`token.children`,
`token.subtree`, `token.right_edge`, `span.root`, `span.noun_chunks`) are
computed from the head pointers exactly as the dependency tree defines them:
children are the tokens whose head points at the token, the subtree is
everything whose head chain reaches the token, `right_edge` is the largest
subtree index, a span's root is its first token whose head lies outside the
span (or is itself), and a span's noun chunks are the document chunks fully
contained in it.

All core logic (`Question.__init__`, `_find_nsubj_in_tokens`, `_determine_wh`,
`_fg_aux`, `_determine_aux`, `_determine_verb_tense`, `_search_for_object`,
`_map_syntax`, `_generate_questions`) is translated function by function.
`Token.nbor(-1)` on the first token of a document raises `IndexError` in
spaCy, so the functions that can reach that call return `Except String`; the
scan loop takes a fuel argument (the Python `while` loop has no structural
termination measure).
-/

/-- An annotated token as delivered by the annotation collaborator. -/
structure Token where
  text : String
  lemma_ : String
  pos : String
  tagExplain : String
  dep : String
  entType : String
  head : Nat
  deriving Repr, DecidableEq

/-- A noun-chunk span `[start, stop)` with its root token index. -/
structure Chunk where
  start : Nat
  stop : Nat
  root : Nat
  deriving Repr, DecidableEq

/-- An annotated document: the token stream plus its noun chunks. -/
structure Doc where
  tokens : List Token
  chunks : List Chunk
  deriving Repr, DecidableEq

def defaultTok : Token := ⟨"", "", "", "", "", "", 0⟩

def tokAt (d : Doc) (i : Nat) : Token :=
  d.tokens.getD i defaultTok

def headIdx (d : Doc) (i : Nat) : Nat :=
  (tokAt d i).head

/-- `j` lies in the dependency subtree rooted at `anc`: following head
pointers from `j` reaches `anc` (within `|doc|` steps, enough for any
acyclic head assignment). -/
def isDesc (d : Doc) (anc j : Nat) : Bool :=
  (List.range (d.tokens.length + 1)).any (fun k => (headIdx d)^[k] j == anc)

/-- The indices of `token.subtree`, in document order. -/
def descIdxs (d : Doc) (i : Nat) : List Nat :=
  (List.range d.tokens.length).filter (fun j => isDesc d i j)

/-- `token.right_edge.i`: the largest index in the token's subtree. -/
def rightEdge (d : Doc) (i : Nat) : Nat :=
  (descIdxs d i).foldl Nat.max i

/-- `token.children`: tokens whose head is the token (spaCy roots point at
themselves and are not their own children). -/
def children (d : Doc) (i : Nat) : List Nat :=
  (List.range d.tokens.length).filter (fun j => headIdx d j == i && j != i)

/-- `span.root` for the span `[s, e)`: the first token of the span whose head
lies outside it or is the token itself. -/
def spanRoot (d : Doc) (s e : Nat) : Nat :=
  ((List.range' s (e - s)).find? (fun i =>
    headIdx d i == i || decide (headIdx d i < s) || decide (e ≤ headIdx d i))).getD s

/-- `span.noun_chunks` for the span `[s, e)`: the document chunks fully
contained in the span, in order. -/
def chunksIn (d : Doc) (s e : Nat) : List Chunk :=
  d.chunks.filter (fun c => decide (s ≤ c.start) && decide (c.stop ≤ e))

/-- The indices of `chunk.subtree` (union of the subtrees of the chunk's
tokens), in document order. -/
def chunkSubtreeIdxs (d : Doc) (c : Chunk) : List Nat :=
  (List.range d.tokens.length).filter (fun j =>
    (List.range' c.start (c.stop - c.start)).any (fun t => isDesc d t j))

def leadMatch : List Char → List Char → Bool
  | [], _ => true
  | _ :: _, [] => false
  | a :: as, b :: bs => a == b && leadMatch as bs

def subSearch (pat : List Char) : List Char → Bool
  | [] => leadMatch pat []
  | b :: bs => leadMatch pat (b :: bs) || subSearch pat bs

/-- Python's substring test `pat in hay` (for the non-empty needles the code
uses). -/
def containsStr (hay pat : String) : Bool :=
  subSearch pat.data hay.data

/-- Python's `str.lower()` restricted to what `' '.join` output contains. -/
def lowerStr (s : String) : String :=
  ⟨s.data.map Char.toLower⟩

/-- Python's `' '.join`. -/
def joinWords : List String → String
  | [] => ""
  | [x] => x
  | x :: y :: ys => x ++ " " ++ joinWords (y :: ys)

def subjDeps : List String := ["csubj", "csubjpass", "nsubj", "nsubjpass"]

def isOpenB (t : String) : Bool :=
  t == "(" || t == "[" || t == "\x7b"

def isCloseB (t : String) : Bool :=
  t == ")" || t == "]" || t == "\x7d"

/-- One step of the `in_punct` bracket-suppression flag shared by
`_find_nsubj_in_tokens` and `_generate_questions`: an opening bracket sets
the flag, a closing bracket clears it when it is set. -/
def bracketStep (p : Bool) (t : String) : Bool :=
  let p1 := if isOpenB t then true else p
  if isCloseB t && p1 then false else p1

/-- The bracket flag after processing `n` tokens starting at index `s` with
initial flag `p`. -/
def flagRun (d : Doc) : Bool → Nat → Nat → Bool
  | p, _, 0 => p
  | p, s, n + 1 => flagRun d (bracketStep p (tokAt d s).text) (s + 1) n

/-- The scan of `_find_nsubj_in_tokens` over the `n` tokens starting at `i`:
skip bracket-suppressed tokens, return the first token with a subject
dependency label whose tag is not a wh-determiner. -/
def findNsubjGo (d : Doc) : Bool → Nat → Nat → Option Nat
  | _, _, 0 => none
  | p, i, n + 1 =>
    let tk := tokAt d i
    let p2 := bracketStep p tk.text
    if p2 then findNsubjGo d p2 (i + 1) n
    else if tk.dep ∈ subjDeps ∧ containsStr tk.tagExplain "wh-determiner" = false then some i
    else findNsubjGo d p2 (i + 1) n

/-- `_find_nsubj_in_tokens` on the clause `[s, e)` (identical in both
files), returning the index of the found subject token. -/
def findNsubjInTokens (d : Doc) (s e : Nat) : Option Nat :=
  findNsubjGo d false s (e - s)

/-- `_determine_verb_tense` (identical in both files): classify by substring
of the verb tag's description; unmatched tags give no tense. -/
def determineVerbTense (t : Token) : Option String :=
  let detail := t.tagExplain
  if containsStr detail "past tense" then some "PAST_TENSE"
  else if containsStr detail "past principle" then some "PAST_PRIN"
  else if containsStr detail "past participle" then some "PAST_PART"
  else if containsStr detail "present" then some "PRESENT"
  else if containsStr detail "future" then some "FUTURE"
  else if containsStr detail "base form" then some "BASE"
  else none

/-- `_search_for_object` (identical in both files): depth-first search of the
dependency subtree for the first `pobj`/`dobj` token.  The fuel bounds the
recursion depth; `|doc|` covers every acyclic head assignment. -/
def searchForObject (d : Doc) : Nat → Option Nat → Option Nat
  | _, none => none
  | 0, some _ => none
  | fuel + 1, some i =>
    if (tokAt d i).dep = "pobj" ∨ (tokAt d i).dep = "dobj" then some i
    else (children d i).findSome? (fun c => searchForObject d fuel (some c))

/-- The auxiliary-verb scan inside `_determine_aux`: the first clause token
tagged `AUX` or labelled `aux`. -/
def findAuxTok (d : Doc) (s e : Nat) : Option Nat :=
  (List.range' s (e - s)).find? (fun i =>
    (tokAt d i).pos == "AUX" || (tokAt d i).dep == "aux")

def App.fgAux (t : Token) : String :=
  if t.text = "to" then "will"
  else if t.text = "be" then "is"
  else t.text

/-- `_determine_aux` of `application.py`.  `verb.nbor(-1)` raises
`IndexError` when the verb is the first token of the document. -/
def App.determineAux (d : Doc) (s e v : Nat) (tense : Option String) :
    Except String (Option String) :=
  if v = 0 then Except.error "nbor"
  else if (tokAt d (v - 1)).pos = "AUX" then Except.ok (some (App.fgAux (tokAt d (v - 1))))
  else
    match findAuxTok d s e with
    | some j =>
      if j = v then Except.ok (some (App.fgAux (tokAt d v)))
      else Except.ok (some (App.fgAux (tokAt d j)))
    | none =>
      if tense = some "PAST_TENSE" then Except.ok (some "did")
      else if tense = some "PRESENT" then Except.ok (some "does")
      else Except.ok none

/-- `_fg_aux` of `src/question_generator.py`.  `'PAST' in verb_tense` raises
`TypeError` when the tense is `None` and the auxiliary text is `to`. -/
def Qg.fgAux (t : Token) (tense : Option String) : Except String String :=
  if t.text = "to" then
    if tense = some "PRESENT" then Except.ok "does"
    else
      match tense with
      | none => Except.error "substr-none"
      | some ts => if containsStr ts "PAST" then Except.ok "did" else Except.ok "will"
  else if t.text = "be" then Except.ok "is"
  else Except.ok t.text

/-- `_determine_aux` of `src/question_generator.py` (the `subj` parameter of
the Python function is unused). -/
def Qg.determineAux (d : Doc) (s e v : Nat) (tense : Option String) :
    Except String (Option String) :=
  if v = 0 then Except.error "nbor"
  else if (tokAt d (v - 1)).pos = "AUX" then (Qg.fgAux (tokAt d (v - 1)) tense).map some
  else
    match findAuxTok d s e with
    | some j =>
      if j = v then (Qg.fgAux (tokAt d v) tense).map some
      else (Qg.fgAux (tokAt d j) tense).map some
    | none =>
      if tense = some "PAST_TENSE" then Except.ok (some "did")
      else if tense = some "PRESENT" then
        Except.ok (some (if containsStr (tokAt d v).tagExplain "non-3rd" then "do" else "does"))
      else Except.ok none

/-- `_determine_wh` of `application.py`: no object gives `Why`. -/
def App.determineWh (subj : Token) (obj : Option Token) : String :=
  match obj with
  | none => "Why"
  | some o =>
    let ent := o.entType
    if subj.dep = "nsubjpass" ∧ subj.text ≠ "which" ∧ subj.text ≠ "that" then "How"
    else if ent = "PERSON" then "Who"
    else if ent = "GPE" then "Where"
    else if ent = "DATE" then "When"
    else "What"

/-- `_determine_wh` of `src/question_generator.py`: no object gives `What`. -/
def Qg.determineWh (subj : Token) (obj : Option Token) : String :=
  match obj with
  | none => "What"
  | some o =>
    let ent := o.entType
    if subj.dep = "nsubjpass" ∧ subj.text ≠ "which" ∧ subj.text ≠ "that" then "How"
    else if ent = "PERSON" then "Who"
    else if ent = "GPE" then "Where"
    else if ent = "DATE" then "When"
    else "What"

/-- The syntax map produced by `_map_syntax` (`stop` is the Python dict's
`end` key; `nsubjS`/`nsubjE` bound the subject span). -/
structure CMap where
  stop : Nat
  wh : String
  nsubjS : Nat
  nsubjE : Nat
  obj : Option Nat
  verb : String
  aux : Option String
  deriving Repr, DecidableEq

/-- The subject/verb/object resolution of `application.py`'s `_map_syntax` on
the clause `[s, e)`: result `(verbIdx, end, subjStart, subjStop, objIdx)`.
The first noun chunk with a subject-labelled root supplies the subject span
(the chunk's subtree span) and re-assigns the verb to the chunk root's head;
otherwise the manual token scan supplies the subject and the verb stays the
clause root. -/
def App.resolveSyntax (d : Doc) (s e : Nat) :
    Option (Nat × Nat × Nat × Nat × Option Nat) :=
  let clRoot := spanRoot d s e
  match (chunksIn d s e).find? (fun c => subjDeps.contains (tokAt d c.root).dep) with
  | some c =>
    let subjIdxs := chunkSubtreeIdxs d c
    let v := (tokAt d c.root).head
    some (v, rightEdge d v, subjIdxs.headD 0, subjIdxs.getLastD 0 + 1,
      (children d v).findSome? (fun ch => searchForObject d d.tokens.length (some ch)))
  | none =>
    match findNsubjInTokens d s e with
    | none => none
    | some t =>
      let subjIdxs := descIdxs d t
      some (clRoot, rightEdge d clRoot, subjIdxs.headD 0, subjIdxs.getLastD 0 + 1,
        (children d clRoot).findSome? (fun ch => searchForObject d d.tokens.length (some ch)))

/-- The resolution of `src/question_generator.py`'s `_map_syntax`: the chunk
loop never assigns `subj`, so the subject always comes from the manual token
scan; only the verb re-assignment (and hence `end`) survives from a found
chunk. -/
def Qg.resolveSyntax (d : Doc) (s e : Nat) :
    Option (Nat × Nat × Nat × Nat × Option Nat) :=
  let clRoot := spanRoot d s e
  let v :=
    match (chunksIn d s e).find? (fun c => subjDeps.contains (tokAt d c.root).dep) with
    | some c => (tokAt d c.root).head
    | none => clRoot
  match findNsubjInTokens d s e with
  | none => none
  | some t =>
    let subjIdxs := descIdxs d t
    some (v, rightEdge d v, subjIdxs.headD 0, subjIdxs.getLastD 0 + 1,
      (children d v).findSome? (fun ch => searchForObject d d.tokens.length (some ch)))

/-- `_map_syntax` of `application.py`. -/
def App.mapSyntax (d : Doc) (s e : Nat) : Except String (Option CMap) :=
  match App.resolveSyntax d s e with
  | none => Except.ok none
  | some (v, st, ss, se2, ob) =>
    let wh := App.determineWh (tokAt d (spanRoot d ss se2)) (ob.map (tokAt d))
    let tense := determineVerbTense (tokAt d v)
    match App.determineAux d s e v tense with
    | Except.error err => Except.error err
    | Except.ok aux =>
      let vtok := tokAt d v
      let vstr :=
        if (tense = some "PAST_TENSE" ∨ tense = some "PRESENT") ∧ aux ≠ some vtok.text
        then vtok.lemma_ else vtok.text
      Except.ok (some ⟨st, wh, ss, se2, ob, vstr, aux⟩)

/-- `_map_syntax` of `src/question_generator.py`. -/
def Qg.mapSyntax (d : Doc) (s e : Nat) : Except String (Option CMap) :=
  match Qg.resolveSyntax d s e with
  | none => Except.ok none
  | some (v, st, ss, se2, ob) =>
    let wh := Qg.determineWh (tokAt d (spanRoot d ss se2)) (ob.map (tokAt d))
    let tense := determineVerbTense (tokAt d v)
    match Qg.determineAux d s e v tense with
    | Except.error err => Except.error err
    | Except.ok aux =>
      let vtok := tokAt d v
      let vstr :=
        if (tense = some "PAST_TENSE" ∨ tense = some "PRESENT") ∧ aux ≠ some vtok.text
        then vtok.lemma_ else vtok.text
      Except.ok (some ⟨st, wh, ss, se2, ob, vstr, aux⟩)

/-- The `Question` value: the five stored slots and the composed string. -/
structure Question where
  wh : String
  aux : String
  nsubj : String
  verb : String
  obj : Option Nat
  question : String
  deriving Repr, DecidableEq

/-- `Question.__init__` (identical in both files): pronoun substitution
`which` to `it`, then the four composition templates, joining tokens with
single spaces (`' '.join`), lowering the auxiliary and normalising `to` to
`will` in the non-`has` branches. -/
def mkQuestion (wh aux nsubj0 verb : String) (obj : Option Nat) : Question :=
  let nsubj := if nsubj0 = "which" then "it" else nsubj0
  if verb = aux then
    if aux = "has" then
      { wh := wh, aux := aux, nsubj := nsubj, verb := verb, obj := obj,
        question := joinWords [wh, "does", nsubj, "have", "?"] }
    else
      let aux2 := if aux = "to" then "will" else aux
      { wh := wh, aux := aux2, nsubj := nsubj, verb := verb, obj := obj,
        question := joinWords [wh, lowerStr aux2, nsubj, "?"] }
  else
    if aux = "has" then
      { wh := wh, aux := aux, nsubj := nsubj, verb := verb, obj := obj,
        question := joinWords [wh, "did", nsubj, verb, "?"] }
    else
      let aux2 := if aux = "to" then "will" else aux
      { wh := wh, aux := aux2, nsubj := nsubj, verb := verb, obj := obj,
        question := joinWords [wh, lowerStr aux2, nsubj, verb, "?"] }

/-- `span.text`: the span's token texts joined by single spaces. -/
def spanText (d : Doc) (s e : Nat) : String :=
  joinWords ((List.range' s (e - s)).map (fun i => (tokAt d i).text))

/-- `_is_proper_noun` of `application.py`: the span holds a named entity and
some token of it is a proper noun. -/
def App.isProperNoun (d : Doc) (s e : Nat) : Bool :=
  ((List.range' s (e - s)).any (fun i => (tokAt d i).entType != "")) &&
  ((List.range' s (e - s)).any (fun i => (tokAt d i).pos == "PROPN"))

/-- The subject text `application.py` hands to the `Question` constructor. -/
def App.subjText (d : Doc) (m : CMap) : String :=
  if App.isProperNoun d m.nsubjS m.nsubjE then spanText d m.nsubjS m.nsubjE
  else lowerStr (spanText d m.nsubjS m.nsubjE)

/-- `_capitalize_proper_nouns` of `src/question_generator.py`: keep proper
nouns, lower everything else. -/
def Qg.capitalizeProperNouns (d : Doc) (s e : Nat) : String :=
  joinWords ((List.range' s (e - s)).map (fun i =>
    if (tokAt d i).pos = "PROPN" then (tokAt d i).text else lowerStr (tokAt d i).text))

def terminators : List String := [".", "!", "?", ";", "--", "..."]

/-- The boundary handling of `application.py`'s `_generate_questions` (lines
334-354): a missing map advances `end` by one; any returned map sets
`start = map.end` and `end = map.end + 1`, and only a complete map (aux
present) appends a question. -/
def App.handleBoundary (d : Doc) (s e : Nat) (qs : List Question) :
    Except String (Nat × Nat × List Question) :=
  match App.mapSyntax d s e with
  | Except.error err => Except.error err
  | Except.ok none => Except.ok (s, e + 1, qs)
  | Except.ok (some m) =>
    match m.aux with
    | none => Except.ok (m.stop, m.stop + 1, qs)
    | some a =>
      Except.ok (m.stop, m.stop + 1,
        qs ++ [mkQuestion m.wh a (App.subjText d m) (lowerStr m.verb) m.obj])

/-- The boundary handling of `src/question_generator.py`'s
`_generate_questions` (lines 324-340): a missing or incomplete map leaves
`start` unchanged and advances `end` by one; a complete map sets
`start = map.end`, `end = map.end + 1` and appends the question. -/
def Qg.handleBoundary (d : Doc) (s e : Nat) (qs : List Question) :
    Except String (Nat × Nat × List Question) :=
  match Qg.mapSyntax d s e with
  | Except.error err => Except.error err
  | Except.ok none => Except.ok (s, e + 1, qs)
  | Except.ok (some m) =>
    match m.aux with
    | none => Except.ok (s, e + 1, qs)
    | some a =>
      Except.ok (m.stop, m.stop + 1,
        qs ++ [mkQuestion m.wh a (Qg.capitalizeProperNouns d m.nsubjS m.nsubjE)
          (lowerStr m.verb) m.obj])

/-- The scan loop of `application.py`'s `_generate_questions`, with explicit
fuel for the Python `while`. -/
def App.scanLoop (d : Doc) : Nat → Nat → Nat → Bool → List Question →
    Except String (Nat × List Question)
  | 0, _, _, _, _ => Except.error "fuel"
  | fuel + 1, s, e, inP, qs =>
    if e < d.tokens.length ∧ s < e then
      let tk := tokAt d e
      let p2 := bracketStep inP tk.text
      if p2 then App.scanLoop d fuel s (e + 1) p2 qs
      else if tk.text ∈ terminators ∨ tk.dep = "cc" then
        match App.handleBoundary d s e qs with
        | Except.error err => Except.error err
        | Except.ok (s2, e2, qs2) => App.scanLoop d fuel s2 e2 p2 qs2
      else App.scanLoop d fuel s (e + 1) p2 qs
    else Except.ok (s, qs)

/-- The scan loop of `src/question_generator.py`'s `_generate_questions`. -/
def Qg.scanLoop (d : Doc) : Nat → Nat → Nat → Bool → List Question →
    Except String (Nat × List Question)
  | 0, _, _, _, _ => Except.error "fuel"
  | fuel + 1, s, e, inP, qs =>
    if e < d.tokens.length ∧ s < e then
      let tk := tokAt d e
      let p2 := bracketStep inP tk.text
      if p2 then Qg.scanLoop d fuel s (e + 1) p2 qs
      else if tk.text ∈ terminators ∨ tk.dep = "cc" then
        match Qg.handleBoundary d s e qs with
        | Except.error err => Except.error err
        | Except.ok (s2, e2, qs2) => Qg.scanLoop d fuel s2 e2 p2 qs2
      else Qg.scanLoop d fuel s (e + 1) p2 qs
    else Except.ok (s, qs)

/-- `_generate_questions` of `application.py`: the scan loop followed by the
final attempt on the remainder of the document. -/
def App.generateQuestions (d : Doc) (fuel : Nat) : Except String (List Question) :=
  match App.scanLoop d fuel 0 1 false [] with
  | Except.error err => Except.error err
  | Except.ok (s, qs) =>
    if s < d.tokens.length then
      match App.mapSyntax d s d.tokens.length with
      | Except.error err => Except.error err
      | Except.ok none => Except.ok qs
      | Except.ok (some m) =>
        match m.aux with
        | none => Except.ok qs
        | some a =>
          Except.ok (qs ++ [mkQuestion m.wh a (App.subjText d m) (lowerStr m.verb) m.obj])
    else Except.ok qs

/-- `_generate_questions` of `src/question_generator.py`. -/
def Qg.generateQuestions (d : Doc) (fuel : Nat) : Except String (List Question) :=
  match Qg.scanLoop d fuel 0 1 false [] with
  | Except.error err => Except.error err
  | Except.ok (s, qs) =>
    if s < d.tokens.length then
      match Qg.mapSyntax d s d.tokens.length with
      | Except.error err => Except.error err
      | Except.ok none => Except.ok qs
      | Except.ok (some m) =>
        match m.aux with
        | none => Except.ok qs
        | some a =>
          Except.ok (qs ++ [mkQuestion m.wh a (Qg.capitalizeProperNouns d m.nsubjS m.nsubjE)
            (lowerStr m.verb) m.obj])
    else Except.ok qs

/-- The WhSelector mapping as the spec states it, parameterised by the
no-object default (which is where the two variants differ). -/
def whSpec (noObjDflt : String) (subj : Token) (obj : Option Token) : String :=
  match obj with
  | none => noObjDflt
  | some o =>
    if subj.dep = "nsubjpass" ∧ subj.text ≠ "which" ∧ subj.text ≠ "that" then "How"
    else if o.entType = "PERSON" then "Who"
    else if o.entType = "GPE" then "Where"
    else if o.entType = "DATE" then "When"
    else "What"

/-- The composition templates of the spec, amended with what the code
actually does: the auxiliary is lowercased in the non-`has` branches (after
normalising `to` to `will`) and a subject equal to `which` becomes `it`. -/
def composeSpec (wh aux subj verb : String) : String :=
  let subj2 := if subj = "which" then "it" else subj
  if verb = aux then
    if aux = "has" then joinWords [wh, "does", subj2, "have", "?"]
    else joinWords [wh, lowerStr (if aux = "to" then "will" else aux), subj2, "?"]
  else
    if aux = "has" then joinWords [wh, "did", subj2, verb, "?"]
    else joinWords [wh, lowerStr (if aux = "to" then "will" else aux), subj2, verb, "?"]

/-- Token `i` lies inside a bracketed span that started at or after `s`:
some opening bracket precedes it with no closing bracket in between
(up to and including `i` itself). -/
def insideBracketsB (d : Doc) (s i : Nat) : Bool :=
  (List.range' s (i - s)).any (fun j => isOpenB (tokAt d j).text &&
    (List.range' (j + 1) (i - j)).all (fun k => !(isCloseB (tokAt d k).text)))

/-- Well-formed noun chunks, as the annotator guarantees: the root lies in
the chunk and the chunk lies in the document. -/
def chunksWFb (d : Doc) : Bool :=
  d.chunks.all (fun c => decide (c.start ≤ c.root) && decide (c.root < c.stop) &&
    decide (c.stop ≤ d.tokens.length))

/-- Annotator output for a passive clause with no object, "door broke .":
subject chunk `door` (nsubjpass) headed by the verb. -/
def cx2 : Doc := ⟨[
  ⟨"door", "door", "NOUN", "noun, singular or mass", "nsubjpass", "", 1⟩,
  ⟨"broke", "break", "VERB", "verb, past tense", "ROOT", "", 1⟩,
  ⟨".", ".", "PUNCT", "punctuation mark, sentence closer", "punct", "", 1⟩],
  [⟨0, 1, 0⟩]⟩

/-- Annotator output for "( he ) ran ." where the parenthesised `he` is a
noun chunk with subject dependency label. -/
def cx3 : Doc := ⟨[
  ⟨"(", "(", "PUNCT", "left round bracket", "punct", "", 3⟩,
  ⟨"he", "he", "PRON", "pronoun, personal", "nsubj", "", 3⟩,
  ⟨")", ")", "PUNCT", "right round bracket", "punct", "", 3⟩,
  ⟨"ran", "run", "VERB", "verb, past tense", "ROOT", "", 3⟩,
  ⟨".", ".", "PUNCT", "punctuation mark, sentence closer", "punct", "", 3⟩],
  [⟨1, 2, 1⟩]⟩

/-- Annotator output for "the dogs run ." with a base-form verb tag: the
tense is neither past nor present, no auxiliary exists, so the syntax map
comes back with an absent auxiliary (an incomplete map). -/
def cx4 : Doc := ⟨[
  ⟨"the", "the", "DET", "determiner", "det", "", 1⟩,
  ⟨"dogs", "dog", "NOUN", "noun, plural", "nsubj", "", 2⟩,
  ⟨"run", "run", "VERB", "verb, base form", "ROOT", "", 2⟩,
  ⟨".", ".", "PUNCT", "punctuation mark, sentence closer", "punct", "", 2⟩],
  [⟨0, 2, 1⟩]⟩

/-- Annotator output for the verb-initial clause "Was the door locked .":
the subject chunk's head is token 0, so `_determine_aux` evaluates
`verb.nbor(-1)` on the first token of the document. -/
def cx5 : Doc := ⟨[
  ⟨"Was", "be", "AUX", "verb, past tense", "ROOT", "", 0⟩,
  ⟨"the", "the", "DET", "determiner", "det", "", 2⟩,
  ⟨"door", "door", "NOUN", "noun, singular or mass", "nsubjpass", "", 0⟩,
  ⟨"locked", "lock", "VERB", "verb, past participle", "acomp", "", 0⟩,
  ⟨".", ".", "PUNCT", "punctuation mark, sentence closer", "punct", "", 0⟩],
  [⟨1, 3, 2⟩]⟩

/-- Annotator output for "they run ." with a non-3rd-person present verb
tag and no auxiliary anywhere. -/
def cx6 : Doc := ⟨[
  ⟨"they", "they", "PRON", "pronoun, personal", "nsubj", "", 1⟩,
  ⟨"run", "run", "VERB", "verb, non-3rd person singular present", "ROOT", "", 1⟩,
  ⟨".", ".", "PUNCT", "punctuation mark, sentence closer", "punct", "", 1⟩],
  []⟩

/-- Annotator output for "( ( x ) y )": nested brackets with
subject-labelled tokens both inside the inner pair and between the inner
and the outer closing bracket. -/
def cx10 : Doc := ⟨[
  ⟨"(", "(", "PUNCT", "left round bracket", "punct", "", 1⟩,
  ⟨"(", "(", "PUNCT", "left round bracket", "punct", "", 1⟩,
  ⟨"x", "x", "NOUN", "noun, singular or mass", "nsubj", "", 1⟩,
  ⟨")", ")", "PUNCT", "right round bracket", "punct", "", 1⟩,
  ⟨"y", "y", "NOUN", "noun, singular or mass", "nsubj", "", 1⟩,
  ⟨")", ")", "PUNCT", "right round bracket", "punct", "", 1⟩],
  []⟩

/-- A passive-labelled subject token used to instantiate the WhSelector
theorems. -/
def cxSubjPass : Token := ⟨"door", "door", "NOUN", "noun, singular or mass", "nsubjpass", "", 0⟩

/-- A PERSON-typed object token used to instantiate the WhSelector
theorems. -/
def cxObjPerson : Token := ⟨"Smith", "Smith", "PROPN", "noun, proper singular", "pobj", "PERSON", 0⟩

theorem joinWords5_q (a b c e : String) :
    joinWords [a, b, c, e, "?"] = (a ++ " " ++ (b ++ " " ++ (c ++ " " ++ e))) ++ " ?" := by
  simp only [joinWords, String.append_assoc]
  rw [show (" " ++ "?" : String) = " ?" from rfl]

theorem joinWords4_q (a b c : String) :
    joinWords [a, b, c, "?"] = (a ++ " " ++ (b ++ " " ++ c)) ++ " ?" := by
  simp only [joinWords, String.append_assoc]
  rw [show (" " ++ "?" : String) = " ?" from rfl]

/-- Claim C1 (amended): the WhSelector mapping holds with the no-object
default depending on the variant: `application.py` yields `Why` with no
object while `src/question_generator.py` yields `What`; with an object both
variants map a passive non-`which`/`that` subject to `How` and otherwise
branch on the object's entity type (`PERSON` to `Who`, `GPE` to `Where`,
`DATE` to `When`, anything else to `What`). -/
theorem claim1_amended (subj : Token) (obj : Option Token) :
    App.determineWh subj obj = whSpec "Why" subj obj ∧
    Qg.determineWh subj obj = whSpec "What" subj obj := by
  cases obj <;> exact ⟨rfl, rfl⟩

/-- Claim C1 counterexample: in `src/question_generator.py` a clause with no
object gets the wh-word `What`, not `Why` as the claim states. -/
theorem claim1_counterexample :
    Qg.determineWh cxSubjPass none = "What" ∧ ("What" : String) ≠ "Why" :=
  ⟨rfl, by decide⟩

/-- Claim C2 (amended): when an object was found, a clause whose subject has
dependency label `nsubjpass` and surface text neither `which` nor `that`
gets the wh-word `How` in both variants.  (With no object the no-object
default takes precedence.) -/
theorem claim2_amended (subj o : Token) (hd : subj.dep = "nsubjpass")
    (h1 : subj.text ≠ "which") (h2 : subj.text ≠ "that") :
    App.determineWh subj (some o) = "How" ∧ Qg.determineWh subj (some o) = "How" := by
  constructor
  · simp [App.determineWh, hd, h1, h2]
  · simp [Qg.determineWh, hd, h1, h2]

theorem claim2_witness :
    App.determineWh cxSubjPass (some cxObjPerson) = "How" ∧
    Qg.determineWh cxSubjPass (some cxObjPerson) = "How" :=
  claim2_amended cxSubjPass cxObjPerson rfl (by decide) (by decide)

/-- Claim C2 counterexample: on the passive no-object clause `door broke .`
(`cx2`) the emitted syntax map carries wh-word `Why`, not `How`, although
the subject token has dependency label `nsubjpass` and text neither `which`
nor `that` — the claim's "regardless of whether an object was found" fails. -/
theorem claim2_counterexample :
    App.mapSyntax cx2 0 2 =
      Except.ok (some ⟨2, "Why", 0, 1, none, "break", some "did"⟩) ∧
    (tokAt cx2 0).dep = "nsubjpass" ∧ (tokAt cx2 0).text ≠ "which" ∧
    (tokAt cx2 0).text ≠ "that" ∧ ("Why" : String) ≠ "How" :=
  ⟨rfl, rfl, by decide, by decide, by decide⟩

/-- Claim C8 (amended): the composer templates hold once the auxiliary is
lowercased in the non-`has` branches (after normalising `to` to `will`) and
a subject equal to `which` is rewritten to `it`; every composed question
ends with a space followed by `?`. -/
theorem claim8_amended (wh aux ns v : String) (ob : Option Nat) :
    (mkQuestion wh aux ns v ob).question = composeSpec wh aux ns v ∧
    ∃ p, (mkQuestion wh aux ns v ob).question = p ++ " ?" := by
  unfold mkQuestion composeSpec
  split_ifs <;>
    refine ⟨rfl, ?_⟩ <;>
    first
      | exact ⟨_, joinWords5_q _ _ _ _⟩
      | exact ⟨_, joinWords4_q _ _ _⟩

/-- Claim C8 counterexample: the constructor lowercases the auxiliary in the
output, so with aux `Will` the composed string is `What will maria visit ?`
and not the claim's literal template `What Will maria visit ?`. -/
theorem claim8_counterexample :
    (mkQuestion "What" "Will" "maria" "visit" none).question = "What will maria visit ?" ∧
    ("What will maria visit ?" : String) ≠ "What Will maria visit ?" :=
  ⟨rfl, by decide⟩

/-- Claim C9: the composed question string never depends on the object
argument — identical wh, aux, subject and verb give identical question
strings whatever the two object values are. -/
theorem claim9_theorem (wh aux ns v : String) (o1 o2 : Option Nat) :
    (mkQuestion wh aux ns v o1).question = (mkQuestion wh aux ns v o2).question := by
  unfold mkQuestion
  split_ifs <;> rfl

theorem openNotClose (t : String) (h : isOpenB t = true) : isCloseB t = false := by
  unfold isOpenB at h
  simp only [Bool.or_eq_true, beq_iff_eq] at h
  rcases h with (h | h) | h <;> subst h <;> decide

theorem closeNotOpen (t : String) (h : isCloseB t = true) : isOpenB t = false := by
  unfold isCloseB at h
  simp only [Bool.or_eq_true, beq_iff_eq] at h
  rcases h with (h | h) | h <;> subst h <;> decide

theorem bracketStep_close (p : Bool) (t : String) (h : isCloseB t = true) :
    bracketStep p t = false := by
  unfold bracketStep
  rw [closeNotOpen t h, h]
  cases p <;> simp

theorem bracketStep_open (p : Bool) (t : String) (h : isOpenB t = true) :
    bracketStep p t = true := by
  unfold bracketStep
  rw [h, openNotClose t h]
  simp

theorem flagRun_split (d : Doc) (m : Nat) : ∀ n p s,
    flagRun d p s (m + n) = flagRun d (flagRun d p s m) (s + m) n := by
  induction m with
  | zero => intro n p s; simp [flagRun]
  | succ m ih =>
    intro n p s
    have h1 : m + 1 + n = m + n + 1 := by omega
    rw [h1]
    show flagRun d (bracketStep p (tokAt d s).text) (s + 1) (m + n) = _
    rw [ih]
    have h2 : s + 1 + m = s + (m + 1) := by omega
    rw [h2]
    rfl

theorem flagRun_stays_true (d : Doc) (n : Nat) : ∀ s,
    (∀ k, s ≤ k → k < s + n → isCloseB (tokAt d k).text = false) →
    flagRun d true s n = true := by
  induction n with
  | zero => intro s _; rfl
  | succ n ih =>
    intro s h
    show flagRun d (bracketStep true (tokAt d s).text) (s + 1) n = true
    have hs : isCloseB (tokAt d s).text = false := h s (le_refl s) (by omega)
    have hb : bracketStep true (tokAt d s).text = true := by
      unfold bracketStep
      rw [hs]
      simp
    rw [hb]
    exact ih (s + 1) (fun k hk1 hk2 => h k (by omega) (by omega))

theorem flagRun_stays_false (d : Doc) (n : Nat) : ∀ s,
    (∀ k, s ≤ k → k < s + n → isOpenB (tokAt d k).text = false) →
    flagRun d false s n = false := by
  induction n with
  | zero => intro s _; rfl
  | succ n ih =>
    intro s h
    show flagRun d (bracketStep false (tokAt d s).text) (s + 1) n = false
    have hs : isOpenB (tokAt d s).text = false := h s (le_refl s) (by omega)
    have hb : bracketStep false (tokAt d s).text = false := by
      unfold bracketStep
      rw [hs]
      simp
    rw [hb]
    exact ih (s + 1) (fun k hk1 hk2 => h k (by omega) (by omega))

theorem findNsubjGo_flag (d : Doc) (n : Nat) : ∀ p i j,
    findNsubjGo d p i n = some j → i ≤ j ∧ flagRun d p i (j + 1 - i) = false := by
  induction n with
  | zero => intro p i j h; simp [findNsubjGo] at h
  | succ n ih =>
    intro p i j h
    rw [show findNsubjGo d p i (n + 1) =
        (if bracketStep p (tokAt d i).text then
          findNsubjGo d (bracketStep p (tokAt d i).text) (i + 1) n
        else if (tokAt d i).dep ∈ subjDeps ∧
            containsStr (tokAt d i).tagExplain "wh-determiner" = false then some i
        else findNsubjGo d (bracketStep p (tokAt d i).text) (i + 1) n) from rfl] at h
    by_cases hp : bracketStep p (tokAt d i).text = true
    · rw [if_pos hp] at h
      obtain ⟨h1, h2⟩ := ih _ _ _ h
      refine ⟨by omega, ?_⟩
      have h3 : j + 1 - i = (j + 1 - (i + 1)) + 1 := by omega
      rw [h3]
      show flagRun d (bracketStep p (tokAt d i).text) (i + 1) (j + 1 - (i + 1)) = false
      exact h2
    · rw [Bool.not_eq_true] at hp
      rw [if_neg (by simp [hp])] at h
      by_cases hm : (tokAt d i).dep ∈ subjDeps ∧
          containsStr (tokAt d i).tagExplain "wh-determiner" = false
      · rw [if_pos hm] at h
        have hji : i = j := by simpa using h
        subst hji
        refine ⟨le_refl i, ?_⟩
        have h3 : i + 1 - i = 1 := by omega
        rw [h3]
        show bracketStep p (tokAt d i).text = false
        exact hp
      · rw [if_neg hm] at h
        obtain ⟨h1, h2⟩ := ih _ _ _ h
        refine ⟨by omega, ?_⟩
        have h3 : j + 1 - i = (j + 1 - (i + 1)) + 1 := by omega
        rw [h3]
        show flagRun d (bracketStep p (tokAt d i).text) (i + 1) (j + 1 - (i + 1)) = false
        exact h2

theorem insideB_flag (d : Doc) (s i : Nat) (h : insideBracketsB d s i = true) :
    flagRun d false s (i + 1 - s) = true := by
  unfold insideBracketsB at h
  rw [List.any_eq_true] at h
  obtain ⟨j, hj, hcond⟩ := h
  rw [List.mem_range'_1] at hj
  rw [Bool.and_eq_true] at hcond
  obtain ⟨hopen, hall⟩ := hcond
  rw [List.all_eq_true] at hall
  have hsj : s ≤ j := hj.1
  have hji : j < i := by omega
  have hsplit : i + 1 - s = (j - s) + ((i - j) + 1) := by omega
  rw [hsplit, flagRun_split]
  have hsj2 : s + (j - s) = j := by omega
  rw [hsj2]
  show flagRun d (bracketStep (flagRun d false s (j - s)) (tokAt d j).text) (j + 1) (i - j) = true
  rw [bracketStep_open _ _ hopen]
  apply flagRun_stays_true
  intro k hk1 hk2
  have hkmem : k ∈ List.range' (j + 1) (i - j) := by
    rw [List.mem_range'_1]
    exact ⟨hk1, hk2⟩
  have hk := hall k hkmem
  simpa using hk

/-- Claim C3 (amended): a token inside a bracketed span is never selected as
the clause subject by the manual token scan `_find_nsubj_in_tokens`; the
noun-chunk search path of `_map_syntax` performs no bracket filtering, so in
`application.py` a bracketed noun-chunk subject can be selected (see the
counterexample). -/
theorem claim3_amended (d : Doc) (s e i : Nat) (h : insideBracketsB d s i = true) :
    findNsubjInTokens d s e ≠ some i := by
  intro hfind
  unfold findNsubjInTokens at hfind
  obtain ⟨hle, hflag⟩ := findNsubjGo_flag d (e - s) false s i hfind
  have htrue := insideB_flag d s i h
  rw [hflag] at htrue
  exact Bool.false_ne_true htrue

theorem claim3_witness :
    insideBracketsB cx3 0 1 = true ∧ findNsubjInTokens cx3 0 4 ≠ some 1 :=
  ⟨by decide, claim3_amended cx3 0 4 1 (by decide)⟩

/-- Claim C3 counterexample: on `( he ) ran .` the noun-chunk path of
`application.py`'s `_map_syntax` selects the bracketed token `he` (index 1,
strictly between the brackets at indices 0 and 2) as the clause subject. -/
theorem claim3_counterexample :
    App.mapSyntax cx3 0 4 =
      Except.ok (some ⟨4, "Why", 1, 2, none, "run", some "did"⟩) ∧
    insideBracketsB cx3 0 1 = true ∧
    isOpenB (tokAt cx3 0).text = true ∧ isCloseB (tokAt cx3 2).text = true :=
  ⟨rfl, by decide, by decide, by decide⟩

/-- Claim C10: bracket suppression is one boolean flag, not a nesting
counter — a closing bracket always leaves the flag cleared, a closing
bracket never begins suppression when none is active (tokens without an
opener keep the flag false), and on the nested input `( ( x ) y )` the
manual scan selects the subject-labelled token `y` that sits between the
inner and the outer closing bracket, as if it were unbracketed. -/
theorem claim10_theorem :
    (∀ (p : Bool) (t : String), isCloseB t = true → bracketStep p t = false) ∧
    (∀ (d : Doc) (n s : Nat),
      (∀ k, s ≤ k → k < s + n → isOpenB (tokAt d k).text = false) →
      flagRun d false s n = false) ∧
    (findNsubjInTokens cx10 0 6 = some 4 ∧ isOpenB (tokAt cx10 0).text = true ∧
     isCloseB (tokAt cx10 3).text = true ∧ isCloseB (tokAt cx10 5).text = true ∧
     (tokAt cx10 2).dep = "nsubj" ∧ (tokAt cx10 4).dep = "nsubj") :=
  ⟨bracketStep_close, fun d n s h => flagRun_stays_false d n s h,
    by decide, by decide, by decide, by decide, by decide, by decide⟩

theorem claim10_witness :
    bracketStep true ")" = false ∧ flagRun cx6 false 0 3 = false := by
  refine ⟨claim10_theorem.1 true ")" rfl, claim10_theorem.2.1 cx6 3 0 ?_⟩
  intro k h1 h2
  interval_cases k <;> rfl

theorem le_foldl_max (l : List Nat) : ∀ a, a ≤ l.foldl Nat.max a := by
  induction l with
  | nil => intro a; exact le_refl a
  | cons x l ih =>
    intro a
    rw [List.foldl_cons]
    exact le_trans (Nat.le_max_left a x) (ih (Nat.max a x))

theorem mem_le_foldl_max (l : List Nat) : ∀ a x, x ∈ l → x ≤ l.foldl Nat.max a := by
  induction l with
  | nil => intro a x hx; cases hx
  | cons y l ih =>
    intro a x hx
    rw [List.foldl_cons]
    cases hx with
    | head => exact le_trans (Nat.le_max_right a y) (le_foldl_max l (Nat.max a y))
    | tail _ h => exact ih (Nat.max a y) x h

theorem rightEdge_ge_self (d : Doc) (i : Nat) : i ≤ rightEdge d i :=
  le_foldl_max _ i

theorem rightEdge_ge_of_head (d : Doc) (j : Nat) (hj : j < d.tokens.length) :
    j ≤ rightEdge d ((tokAt d j).head) := by
  apply mem_le_foldl_max
  unfold descIdxs
  rw [List.mem_filter]
  refine ⟨?_, ?_⟩
  · rw [List.mem_range]; exact hj
  · unfold isDesc
    rw [List.any_eq_true]
    refine ⟨1, ?_, ?_⟩
    · rw [List.mem_range]; omega
    · show ((headIdx d)^[1] j == (tokAt d j).head) = true
      rw [Function.iterate_one]
      exact beq_self_eq_true _

theorem spanRoot_ge (d : Doc) (s e : Nat) : s ≤ spanRoot d s e := by
  unfold spanRoot
  cases hf : (List.range' s (e - s)).find? (fun i =>
      headIdx d i == i || decide (headIdx d i < s) || decide (e ≤ headIdx d i)) with
  | none => exact le_refl s
  | some x =>
    have hx := List.mem_of_find?_eq_some hf
    rw [List.mem_range'_1] at hx
    exact hx.1

theorem appResolveStop_ge (d : Doc) (s e : Nat) (hwf : chunksWFb d = true)
    (v st ss se2 : Nat) (ob : Option Nat)
    (h : App.resolveSyntax d s e = some (v, st, ss, se2, ob)) : s ≤ st := by
  unfold App.resolveSyntax at h
  cases hc : (chunksIn d s e).find? (fun c => subjDeps.contains (tokAt d c.root).dep) with
  | some c =>
    rw [hc] at h
    simp only [Option.some.injEq, Prod.mk.injEq] at h
    obtain ⟨hv, hst, hrest⟩ := h
    have hmem := List.mem_of_find?_eq_some hc
    unfold chunksIn at hmem
    rw [List.mem_filter] at hmem
    obtain ⟨hmem2, hband⟩ := hmem
    simp only [Bool.and_eq_true, decide_eq_true_eq] at hband
    unfold chunksWFb at hwf
    rw [List.all_eq_true] at hwf
    have hcw := hwf c hmem2
    simp only [Bool.and_eq_true, decide_eq_true_eq] at hcw
    have hroot : c.root < d.tokens.length := by omega
    have h1 : c.root ≤ rightEdge d ((tokAt d c.root).head) :=
      rightEdge_ge_of_head d c.root hroot
    omega
  | none =>
    rw [hc] at h
    cases hn : findNsubjInTokens d s e with
    | none => rw [hn] at h; simp at h
    | some t =>
      rw [hn] at h
      simp only [Option.some.injEq, Prod.mk.injEq] at h
      obtain ⟨hv, hst, hrest⟩ := h
      have h1 : spanRoot d s e ≤ rightEdge d (spanRoot d s e) := rightEdge_ge_self d _
      have h2 : s ≤ spanRoot d s e := spanRoot_ge d s e
      omega

theorem qgResolveStop_ge (d : Doc) (s e : Nat) (hwf : chunksWFb d = true)
    (v st ss se2 : Nat) (ob : Option Nat)
    (h : Qg.resolveSyntax d s e = some (v, st, ss, se2, ob)) : s ≤ st := by
  unfold Qg.resolveSyntax at h
  cases hn : findNsubjInTokens d s e with
  | none => rw [hn] at h; simp at h
  | some t =>
    rw [hn] at h
    cases hc : (chunksIn d s e).find? (fun c => subjDeps.contains (tokAt d c.root).dep) with
    | some c =>
      rw [hc] at h
      simp only [Option.some.injEq, Prod.mk.injEq] at h
      obtain ⟨hv, hst, hrest⟩ := h
      have hmem := List.mem_of_find?_eq_some hc
      unfold chunksIn at hmem
      rw [List.mem_filter] at hmem
      obtain ⟨hmem2, hband⟩ := hmem
      simp only [Bool.and_eq_true, decide_eq_true_eq] at hband
      unfold chunksWFb at hwf
      rw [List.all_eq_true] at hwf
      have hcw := hwf c hmem2
      simp only [Bool.and_eq_true, decide_eq_true_eq] at hcw
      have hroot : c.root < d.tokens.length := by omega
      have h1 : c.root ≤ rightEdge d ((tokAt d c.root).head) :=
        rightEdge_ge_of_head d c.root hroot
      omega
    | none =>
      rw [hc] at h
      simp only [Option.some.injEq, Prod.mk.injEq] at h
      obtain ⟨hv, hst, hrest⟩ := h
      have h1 : spanRoot d s e ≤ rightEdge d (spanRoot d s e) := rightEdge_ge_self d _
      have h2 : s ≤ spanRoot d s e := spanRoot_ge d s e
      omega

theorem appMapSyntaxOk (d : Doc) (s e v st ss se2 : Nat) (ob : Option Nat)
    (aux : Option String)
    (hr : App.resolveSyntax d s e = some (v, st, ss, se2, ob))
    (ha : App.determineAux d s e v (determineVerbTense (tokAt d v)) = Except.ok aux) :
    App.mapSyntax d s e = Except.ok (some ⟨st,
      App.determineWh (tokAt d (spanRoot d ss se2)) (ob.map (tokAt d)), ss, se2, ob,
      if (determineVerbTense (tokAt d v) = some "PAST_TENSE" ∨
          determineVerbTense (tokAt d v) = some "PRESENT") ∧ aux ≠ some (tokAt d v).text
      then (tokAt d v).lemma_ else (tokAt d v).text, aux⟩) := by
  simp only [App.mapSyntax, hr, ha]

theorem qgMapSyntaxOk (d : Doc) (s e v st ss se2 : Nat) (ob : Option Nat)
    (aux : Option String)
    (hr : Qg.resolveSyntax d s e = some (v, st, ss, se2, ob))
    (ha : Qg.determineAux d s e v (determineVerbTense (tokAt d v)) = Except.ok aux) :
    Qg.mapSyntax d s e = Except.ok (some ⟨st,
      Qg.determineWh (tokAt d (spanRoot d ss se2)) (ob.map (tokAt d)), ss, se2, ob,
      if (determineVerbTense (tokAt d v) = some "PAST_TENSE" ∨
          determineVerbTense (tokAt d v) = some "PRESENT") ∧ aux ≠ some (tokAt d v).text
      then (tokAt d v).lemma_ else (tokAt d v).text, aux⟩) := by
  simp only [Qg.mapSyntax, hr, ha]

theorem appMapStop_ge (d : Doc) (s e : Nat) (hwf : chunksWFb d = true) (m : CMap)
    (h : App.mapSyntax d s e = Except.ok (some m)) : s ≤ m.stop := by
  cases hr : App.resolveSyntax d s e with
  | none =>
    rw [show App.mapSyntax d s e = Except.ok none by simp only [App.mapSyntax, hr]] at h
    simp at h
  | some tup =>
    obtain ⟨v, st, ss, se2, ob⟩ := tup
    cases ha : App.determineAux d s e v (determineVerbTense (tokAt d v)) with
    | error err =>
      rw [show App.mapSyntax d s e = Except.error err by
        simp only [App.mapSyntax, hr, ha]] at h
      simp at h
    | ok aux =>
      have heq := appMapSyntaxOk d s e v st ss se2 ob aux hr ha
      rw [heq] at h
      simp only [Except.ok.injEq, Option.some.injEq] at h
      rw [← h]
      exact appResolveStop_ge d s e hwf v st ss se2 ob hr

theorem qgMapStop_ge (d : Doc) (s e : Nat) (hwf : chunksWFb d = true) (m : CMap)
    (h : Qg.mapSyntax d s e = Except.ok (some m)) : s ≤ m.stop := by
  cases hr : Qg.resolveSyntax d s e with
  | none =>
    rw [show Qg.mapSyntax d s e = Except.ok none by simp only [Qg.mapSyntax, hr]] at h
    simp at h
  | some tup =>
    obtain ⟨v, st, ss, se2, ob⟩ := tup
    cases ha : Qg.determineAux d s e v (determineVerbTense (tokAt d v)) with
    | error err =>
      rw [show Qg.mapSyntax d s e = Except.error err by
        simp only [Qg.mapSyntax, hr, ha]] at h
      simp at h
    | ok aux =>
      have heq := qgMapSyntaxOk d s e v st ss se2 ob aux hr ha
      rw [heq] at h
      simp only [Except.ok.injEq, Option.some.injEq] at h
      rw [← h]
      exact qgResolveStop_ge d s e hwf v st ss se2 ob hr

/-- Claim C4 (amended): in `src/question_generator.py` the scan law holds as
stated — a missing or incomplete map (absent aux) leaves `start` unchanged
and advances `end` by one, and a complete map sets `start = map.end`,
`end = map.end + 1` and appends the question.  In `application.py` a missing
map leaves `start` unchanged, but a returned-yet-incomplete map also sets
`start = map.end` and `end = map.end + 1` (without appending).  In both
variants, for well-formed noun chunks, any returned map satisfies
`start ≤ map.end`, so the start position is monotonically non-decreasing. -/
theorem claim4_amended (d : Doc) (s e : Nat) (qs : List Question) :
    (App.mapSyntax d s e = Except.ok none →
      App.handleBoundary d s e qs = Except.ok (s, e + 1, qs)) ∧
    (∀ m, App.mapSyntax d s e = Except.ok (some m) → m.aux = none →
      App.handleBoundary d s e qs = Except.ok (m.stop, m.stop + 1, qs)) ∧
    (∀ m a, App.mapSyntax d s e = Except.ok (some m) → m.aux = some a →
      App.handleBoundary d s e qs = Except.ok (m.stop, m.stop + 1,
        qs ++ [mkQuestion m.wh a (App.subjText d m) (lowerStr m.verb) m.obj])) ∧
    (Qg.mapSyntax d s e = Except.ok none →
      Qg.handleBoundary d s e qs = Except.ok (s, e + 1, qs)) ∧
    (∀ m, Qg.mapSyntax d s e = Except.ok (some m) → m.aux = none →
      Qg.handleBoundary d s e qs = Except.ok (s, e + 1, qs)) ∧
    (∀ m a, Qg.mapSyntax d s e = Except.ok (some m) → m.aux = some a →
      Qg.handleBoundary d s e qs = Except.ok (m.stop, m.stop + 1,
        qs ++ [mkQuestion m.wh a (Qg.capitalizeProperNouns d m.nsubjS m.nsubjE)
          (lowerStr m.verb) m.obj])) ∧
    (chunksWFb d = true → ∀ m, App.mapSyntax d s e = Except.ok (some m) → s ≤ m.stop) ∧
    (chunksWFb d = true → ∀ m, Qg.mapSyntax d s e = Except.ok (some m) → s ≤ m.stop) := by
  refine ⟨?_, ?_, ?_, ?_, ?_, ?_, ?_, ?_⟩
  · intro h; simp only [App.handleBoundary, h]
  · intro m h hm; simp only [App.handleBoundary, h, hm]
  · intro m a h hm; simp only [App.handleBoundary, h, hm]
  · intro h; simp only [Qg.handleBoundary, h]
  · intro m h hm; simp only [Qg.handleBoundary, h, hm]
  · intro m a h hm; simp only [Qg.handleBoundary, h, hm]
  · intro hwf m h; exact appMapStop_ge d s e hwf m h
  · intro hwf m h; exact qgMapStop_ge d s e hwf m h

theorem claim4_witness :
    App.handleBoundary cx4 0 3 [] = Except.ok (3, 4, []) ∧ (0 : Nat) ≤ 3 := by
  have h := claim4_amended cx4 0 3 []
  have hmap : App.mapSyntax cx4 0 3 =
      Except.ok (some ⟨3, "Why", 0, 2, none, "run", none⟩) := rfl
  exact ⟨h.2.1 ⟨3, "Why", 0, 2, none, "run", none⟩ hmap rfl,
    h.2.2.2.2.2.2.1 rfl ⟨3, "Why", 0, 2, none, "run", none⟩ hmap⟩

/-- Claim C4 counterexample: on `the dogs run .` (`cx4`) the syntax mapper
returns an incomplete map (absent aux) at the boundary `(start, end) =
(0, 3)`, yet `application.py` sets the scan start to the map's end index 3
instead of leaving it at 0, refuting "the scan start index stays unchanged"
for incomplete maps. -/
theorem claim4_counterexample :
    App.mapSyntax cx4 0 3 = Except.ok (some ⟨3, "Why", 0, 2, none, "run", none⟩) ∧
    App.handleBoundary cx4 0 3 [] = Except.ok (3, 4, []) ∧ (3 : Nat) ≠ 0 :=
  ⟨rfl, rfl, by decide⟩

/-- Claim C5: the spec is right that no internal condition may be fatal, but
the code can raise a fatal `IndexError`: on the verb-initial clause
`Was the door locked .` the resolved verb is token 0 and
`_determine_aux` evaluates `verb.nbor(-1)` on it, aborting the whole
generation instead of returning a (possibly empty) question list. -/
theorem claim5_theorem : App.generateQuestions cx5 20 = Except.error "nbor" := rfl

/-- Claim C6 (amended): with no auxiliary before the verb and none found by
scanning the clause, the default auxiliary is `did` for PAST_TENSE in both
variants; for PRESENT `application.py` always returns `does` (it has no
non-3rd-person check), while `src/question_generator.py` returns `do` when
the verb's tag indicates a non-3rd-person form and `does` otherwise; for
every other tense the auxiliary is absent and the clause is later dropped
(no question is appended for a map with an absent aux). -/
theorem claim6_amended (d : Doc) (s e v : Nat) (tense : Option String)
    (hv : v ≠ 0) (hprev : (tokAt d (v - 1)).pos ≠ "AUX")
    (hscan : findAuxTok d s e = none) :
    App.determineAux d s e v tense = Except.ok
      (if tense = some "PAST_TENSE" then some "did"
       else if tense = some "PRESENT" then some "does" else none) ∧
    Qg.determineAux d s e v tense = Except.ok
      (if tense = some "PAST_TENSE" then some "did"
       else if tense = some "PRESENT" then
         some (if containsStr (tokAt d v).tagExplain "non-3rd" then "do" else "does")
       else none) ∧
    (∀ qs m, App.mapSyntax d s e = Except.ok (some m) → m.aux = none →
      App.handleBoundary d s e qs = Except.ok (m.stop, m.stop + 1, qs)) ∧
    (∀ qs m, Qg.mapSyntax d s e = Except.ok (some m) → m.aux = none →
      Qg.handleBoundary d s e qs = Except.ok (s, e + 1, qs)) := by
  refine ⟨?_, ?_, ?_, ?_⟩
  · unfold App.determineAux
    rw [if_neg hv, if_neg hprev, hscan]
    by_cases h1 : tense = some "PAST_TENSE"
    · simp [h1]
    · by_cases h2 : tense = some "PRESENT"
      · simp [h1, h2]
      · simp [h1, h2]
  · unfold Qg.determineAux
    rw [if_neg hv, if_neg hprev, hscan]
    by_cases h1 : tense = some "PAST_TENSE"
    · simp [h1]
    · by_cases h2 : tense = some "PRESENT"
      · simp [h1, h2]
      · simp [h1, h2]
  · intro qs m h hm; simp only [App.handleBoundary, h, hm]
  · intro qs m h hm; simp only [Qg.handleBoundary, h, hm]

theorem claim6_witness :
    App.determineAux cx6 0 3 1 (some "PRESENT") = Except.ok (some "does") ∧
    Qg.determineAux cx6 0 3 1 (some "PRESENT") = Except.ok (some "do") := by
  have h := claim6_amended cx6 0 3 1 (some "PRESENT") (by decide) (by decide) rfl
  constructor
  · rw [h.1]; rfl
  · rw [h.2.1]; rfl

/-- Claim C6 counterexample: for a present-tense verb whose tag indicates a
non-3rd-person form (`they run .`), `application.py` defaults the auxiliary
to `does`, not the `do` that the claim requires. -/
theorem claim6_counterexample :
    App.determineAux cx6 0 3 1 (some "PRESENT") = Except.ok (some "does") ∧
    containsStr (tokAt cx6 1).tagExplain "non-3rd" = true ∧
    (some "does" : Option String) ≠ some "do" :=
  ⟨rfl, rfl, by decide⟩

/-- Claim C7: for every mapped clause (both variants), if the classified
tense is past-tense or present-tense and the chosen auxiliary differs from
the verb's surface text, the syntax map's verb slot holds the verb's lemma;
otherwise it holds the verb's surface text. -/
theorem claim7_theorem (d : Doc) (s e v st ss se2 : Nat) (ob : Option Nat)
    (a : Option String) :
    (App.resolveSyntax d s e = some (v, st, ss, se2, ob) →
      App.determineAux d s e v (determineVerbTense (tokAt d v)) = Except.ok a →
      (((determineVerbTense (tokAt d v) = some "PAST_TENSE" ∨
          determineVerbTense (tokAt d v) = some "PRESENT") ∧ a ≠ some (tokAt d v).text →
        App.mapSyntax d s e = Except.ok (some ⟨st,
          App.determineWh (tokAt d (spanRoot d ss se2)) (ob.map (tokAt d)), ss, se2, ob,
          (tokAt d v).lemma_, a⟩)) ∧
       (¬ ((determineVerbTense (tokAt d v) = some "PAST_TENSE" ∨
           determineVerbTense (tokAt d v) = some "PRESENT") ∧ a ≠ some (tokAt d v).text) →
        App.mapSyntax d s e = Except.ok (some ⟨st,
          App.determineWh (tokAt d (spanRoot d ss se2)) (ob.map (tokAt d)), ss, se2, ob,
          (tokAt d v).text, a⟩)))) ∧
    (Qg.resolveSyntax d s e = some (v, st, ss, se2, ob) →
      Qg.determineAux d s e v (determineVerbTense (tokAt d v)) = Except.ok a →
      (((determineVerbTense (tokAt d v) = some "PAST_TENSE" ∨
          determineVerbTense (tokAt d v) = some "PRESENT") ∧ a ≠ some (tokAt d v).text →
        Qg.mapSyntax d s e = Except.ok (some ⟨st,
          Qg.determineWh (tokAt d (spanRoot d ss se2)) (ob.map (tokAt d)), ss, se2, ob,
          (tokAt d v).lemma_, a⟩)) ∧
       (¬ ((determineVerbTense (tokAt d v) = some "PAST_TENSE" ∨
           determineVerbTense (tokAt d v) = some "PRESENT") ∧ a ≠ some (tokAt d v).text) →
        Qg.mapSyntax d s e = Except.ok (some ⟨st,
          Qg.determineWh (tokAt d (spanRoot d ss se2)) (ob.map (tokAt d)), ss, se2, ob,
          (tokAt d v).text, a⟩)))) := by
  constructor
  · intro hr ha
    have heq := appMapSyntaxOk d s e v st ss se2 ob a hr ha
    constructor
    · intro hcond; rw [heq, if_pos hcond]
    · intro hcond; rw [heq, if_neg hcond]
  · intro hr ha
    have heq := qgMapSyntaxOk d s e v st ss se2 ob a hr ha
    constructor
    · intro hcond; rw [heq, if_pos hcond]
    · intro hcond; rw [heq, if_neg hcond]

theorem claim7_witness :
    App.mapSyntax cx2 0 2 =
      Except.ok (some ⟨2, "Why", 0, 1, none, "break", some "did"⟩) := by
  have h := ((claim7_theorem cx2 0 2 1 2 0 1 none (some "did")).1 rfl rfl).1 (by decide)
  exact h
